import Mathlib

/-!
Verification development for the annotation store of the hxat repository
(file annotation_store/store.py). The Python classes are shallowly embedded:
pure helpers become Lean functions, the database becomes an explicit list of
rows threaded through each operation, and Python exceptions become an error
type carried in Except.
-/

namespace HxAT

/-- Errors raised by the embedded code. http404 is the django Http404 raised
by get_object_or_404 (rendered as a 404 response); doesNotExist is the
Model.DoesNotExist raised by Model.objects.get (an unhandled exception, i.e.
a server error, not a 404); permissionDenied is django PermissionDenied
(rendered as 403); valueError models int() on a non-digit string; jsonError
models json.loads failing on a response body. -/
inductive PyErr where
  | http404
  | doesNotExist
  | permissionDenied
  | valueError
  | jsonError
  deriving Repr, DecidableEq

/-- A django HttpResponse: status code, body content and content type. -/
structure HttpResp where
  status : Nat
  content : String
  contentType : String
  deriving Repr, DecidableEq

/-- The permissions dict of an incoming payload. Each key is optional because
the JSON object may omit it; the code merges it over defaults with
dict.update. -/
structure PermsDict where
  read : Option (List String)
  admin : Option (List String)
  update : Option (List String)
  delete : Option (List String)
  deriving Repr, DecidableEq

/-- The fully defaulted permissions dict after the merge in
StoreBackend._modify_permissions. -/
structure Perms where
  read : List String
  admin : List String
  update : List String
  delete : List String
  deriving Repr, DecidableEq

/-- An incoming annotation payload (the JSON request body for create and
update), with the fields store.py reads. The parent key and the permissions
key may be absent. -/
structure AnnoPayload where
  contextId : String
  collectionId : String
  uri : String
  media : String
  userId : String
  userName : String
  text : String
  quote : String
  tags : List String
  parent : Option String
  permissions : Option PermsDict
  deriving Repr, DecidableEq

/-- StoreBackend.ADMIN_GROUP_ID. -/
def ADMIN_GROUP_ID : String := "__admin__"

/-- The merge at the top of _modify_permissions: defaults for all four lists,
overridden by whatever keys the payload carries. -/
def mergedPerms (data : AnnoPayload) : Perms :=
  match data.permissions with
  | none => { read := [], admin := [], update := [], delete := [] }
  | some pd =>
      { read := pd.read.getD [], admin := pd.admin.getD [],
        update := pd.update.getD [], delete := pd.delete.getD [] }

/-- Storing a fully defaulted permissions dict back onto the payload. -/
def toDict (p : Perms) : PermsDict :=
  { read := some p.read, admin := some p.admin,
    update := some p.update, delete := some p.delete }

/-- The reply test in _modify_permissions: a parent key is present and its
value is neither the empty string nor the string "0". -/
def hasParentB (data : AnnoPayload) : Bool :=
  match data.parent with
  | none => false
  | some s => s != "" && s != "0"

/-- StoreBackend._modify_permissions: rewrite the read permissions so course
admins can view private annotations. Public payloads are returned unchanged;
replies get an empty read list; private top level payloads get the author id
prepended when missing and the admin group id appended when missing. -/
def modify_permissions (data : AnnoPayload) : AnnoPayload :=
  let permissions := mergedPerms data
  if permissions.read.length == 0 then data
  else if hasParentB data then
    { data with permissions := some (toDict { permissions with read := [] }) }
  else
    let read1 := if data.userId ∈ permissions.read then permissions.read
                 else data.userId :: permissions.read
    let read2 := if ADMIN_GROUP_ID ∈ read1 then read1
                 else read1 ++ [ADMIN_GROUP_ID]
    { data with permissions := some (toDict { permissions with read := read2 }) }

/-- The read list visible on a payload, i.e.
data.get("permissions", dict()).get("read", list()). -/
def payloadRead (data : AnnoPayload) : List String :=
  match data.permissions with
  | none => []
  | some pd => pd.read.getD []

/-- A row of the Annotation table used by AppStoreBackend. The json column
(the full payload as received, dumped at save time and loaded again at
serialization time) is kept as the payload value itself since the dump and
load round trip. The many to many tag relation is flattened onto the row as
the list of trimmed tag names attached to it. -/
structure Anno where
  pk : Nat
  context_id : String
  collection_id : String
  uri : String
  media : String
  user_id : String
  user_name : String
  is_private : Bool
  text : String
  quote : String
  json : AnnoPayload
  parent_id : Option Nat
  total_comments : Int
  is_deleted : Bool
  created_at : String
  updated_at : String
  tags : List String
  deriving Repr, DecidableEq

/-- Annotation.objects.get(pk=q) or get_object_or_404: the first row whose
primary key is q. -/
def findAnno (store : List Anno) (q : Nat) : Option Anno :=
  store.find? (fun a => a.pk == q)

/-- anno.save() for an existing row: replace the row with that primary key. -/
def saveAnno (store : List Anno) (a : Anno) : List Anno :=
  store.map (fun x => if x.pk == a.pk then a else x)

/-- Python truthiness of the nullable integer column parent_id, as used by
the tests "if anno.parent_id" in delete and _create_or_update. -/
def optTruthy : Option Nat → Bool
  | none => false
  | some n => n != 0

/-- Python str.isdigit: nonempty and every character a digit. -/
def strIsDigit (s : String) : Bool :=
  !s.isEmpty && s.data.all Char.isDigit

/-- Value of int(s) for a digit string. -/
def strToNat (s : String) : Nat :=
  s.data.foldl (fun n c => 10 * n + (c.toNat - 48)) 0

/-- Python int(s): raises ValueError unless s is numeric. The callers in
store.py feed it annotation ids, matched by the url pattern [0-9]+, so the
digits only case is the one modelled. -/
def pyInt (s : String) : Except PyErr Nat :=
  if strIsDigit s then Except.ok (strToNat s) else Except.error PyErr.valueError

/-- The external JSON representation built by
AppStoreBackend._serialize_annotation: the stored payload with id, deleted,
created and updated overlaid, and totalComments present exactly when the row
has no parent (parent_id is None). -/
structure SerializedAnno where
  payload : AnnoPayload
  id : Nat
  deleted : Bool
  created : String
  updated : String
  totalComments : Option Int
  deriving Repr, DecidableEq

/-- AppStoreBackend._serialize_annotation. -/
def serializeAnno (a : Anno) : SerializedAnno :=
  { payload := a.json, id := a.pk, deleted := a.is_deleted,
    created := a.created_at, updated := a.updated_at,
    totalComments := if a.parent_id = none then some a.total_comments else none }

/-- A response from the app backend: HTTP status plus the serialized row the
body is dumped from. -/
structure AppResp where
  status : Nat
  body : SerializedAnno
  deriving Repr, DecidableEq

/-- AppStoreBackend.max_limit. -/
def MAX_LIMIT : Nat := 1000

/-- The search response envelope of AppStoreBackend.search. The rows field
holds the selected annotation rows; the HTTP body maps each of them through
serializeAnno. -/
structure SearchResult where
  total : Nat
  limit : Int
  offset : Nat
  size : Nat
  rows : List Anno
  deriving Repr, DecidableEq

/-- The limit computation of AppStoreBackend.search: a digit string limit is
used if at most max_limit, clamped to max_limit otherwise; an absent or non
digit limit falls back to max_limit. -/
def searchLimit (limitParam : Option String) : Int :=
  match limitParam with
  | some s =>
      if strIsDigit s then
        if (strToNat s : Int) ≤ (MAX_LIMIT : Int) then (strToNat s : Int)
        else (MAX_LIMIT : Int)
      else (MAX_LIMIT : Int)
  | none => (MAX_LIMIT : Int)

/-- The offset computation of AppStoreBackend.search: a digit string offset
is used if below the total, clamped to the total otherwise; an absent or non
digit offset is 0. -/
def searchOffset (offsetParam : Option String) (total : Nat) : Nat :=
  match offsetParam with
  | some s =>
      if strIsDigit s then (if strToNat s < total then strToNat s else total)
      else 0
  | none => 0

/-- The filtered queryset of AppStoreBackend.search. The keyword filters
built from the query_map parameters are all conjoined by the ORM, and are
abstracted here as one predicate; the extra visibility condition
Q(is_private=False) or (Q(is_private=True) and Q(user_id=user_id)) is added
exactly when the caller is not staff. -/
def app_search_queryset (store : List Anno) (user_id : String)
    (is_staff : Bool) (filters : Anno → Bool) : List Anno :=
  store.filter (fun a =>
    (is_staff || (!a.is_private || (a.is_private && a.user_id == user_id)))
      && filters a)

/-- AppStoreBackend.search: filter, count, clamp limit and offset, slice.
The slice queryset[start:end] is take end followed by drop start. -/
def app_search (store : List Anno) (user_id : String) (is_staff : Bool)
    (filters : Anno → Bool) (limitParam offsetParam : Option String) :
    SearchResult :=
  let queryset := app_search_queryset store user_id is_staff filters
  let total := queryset.length
  let limit := searchLimit limitParam
  let offset := searchOffset offsetParam total
  let stop : Int :=
    if (offset : Int) + limit < (total : Int) then (offset : Int) + limit
    else (total : Int)
  let rows :=
    if limit < 0 then queryset.drop offset
    else (queryset.take stop.toNat).drop offset
  { total := total, limit := limit, offset := offset,
    size := rows.length, rows := rows }

/-- AppStoreBackend.read: get_object_or_404 then serialize with status 200. -/
def app_read (store : List Anno) (annotation_id : Nat) :
    Except PyErr AppResp :=
  match findAnno store annotation_id with
  | none => Except.error PyErr.http404
  | some anno => Except.ok { status := 200, body := serializeAnno anno }

/-- A fresh Annotation() object as built in _create_or_update, with the
primary key it will receive at insertion and the request clock. -/
def blankAnno (freshPk : Nat) (now : String) (rawBody : AnnoPayload) : Anno :=
  { pk := freshPk, context_id := "", collection_id := "", uri := "",
    media := "", user_id := "", user_name := "", is_private := false,
    text := "", quote := "", json := rawBody, parent_id := none,
    total_comments := 0, is_deleted := false, created_at := now,
    updated_at := now, tags := [] }

/-- AppStoreBackend._create_or_update. adminEnabled is
StoreBackend.ADMIN_GROUP_ENABLED, gating the permission rewrite done by
_get_request_body. The tag rebuild (clear plus get_or_create of each trimmed
name) is folded into the row before it is stored; the whole method runs in
one transaction so only the final state is observable. -/
def create_or_update (adminEnabled : Bool) (store : List Anno)
    (rawBody : AnnoPayload) (old : Option Anno) (freshPk : Nat)
    (now : String) : Except PyErr (List Anno × Anno) := do
  let createFlag := old.isNone
  let a0 := match old with
    | some a => a
    | none => blankAnno freshPk now rawBody
  let body := if adminEnabled then modify_permissions rawBody else rawBody
  let pid ← (match body.parent with
    | some s =>
        if s == "0" then Except.ok a0.parent_id
        else (pyInt s).map (fun n => some n)
    | none => Except.ok a0.parent_id)
  let a1 : Anno :=
    { a0 with
      context_id := body.contextId, collection_id := body.collectionId,
      uri := body.uri, media := body.media, user_id := body.userId,
      user_name := body.userName,
      is_private := !(payloadRead body).isEmpty,
      text := body.text, quote := body.quote, json := body,
      parent_id := pid, updated_at := now,
      tags := body.tags.map (fun t => t.trim) }
  let store1 := if createFlag then store ++ [a1] else saveAnno store a1
  let store2 ←
    if createFlag && optTruthy a1.parent_id then
      match body.parent with
      | some s => do
          let ppk ← pyInt s
          match findAnno store1 ppk with
          | none => Except.error PyErr.doesNotExist
          | some parent =>
              Except.ok (saveAnno store1
                { parent with total_comments := parent.total_comments + 1 })
      | none => Except.error PyErr.doesNotExist
    else Except.ok store1
  Except.ok (store2, a1)

/-- AppStoreBackend.create. -/
def app_create (adminEnabled : Bool) (store : List Anno) (body : AnnoPayload)
    (freshPk : Nat) (now : String) : Except PyErr (List Anno × AppResp) := do
  let r ← create_or_update adminEnabled store body none freshPk now
  Except.ok (r.1, { status := 200, body := serializeAnno r.2 })

/-- AppStoreBackend.update: Annotation.objects.get raises DoesNotExist on a
missing id, then _create_or_update runs on the fetched row. -/
def app_update (adminEnabled : Bool) (store : List Anno)
    (annotation_id : Nat) (body : AnnoPayload) (now : String) :
    Except PyErr (List Anno × AppResp) := do
  match findAnno store annotation_id with
  | none => Except.error PyErr.doesNotExist
  | some anno => do
      let r ← create_or_update adminEnabled store body (some anno) 0 now
      Except.ok (r.1, { status := 200, body := serializeAnno r.2 })

/-- AppStoreBackend.delete: Annotation.objects.get raises DoesNotExist on a
missing id; otherwise soft delete the row and, when it has a truthy
parent_id, decrement the total_comments of the parent fetched back from the
store. -/
def app_delete (store : List Anno) (annotation_id : Nat) (now : String) :
    Except PyErr (List Anno × AppResp) := do
  match findAnno store annotation_id with
  | none => Except.error PyErr.doesNotExist
  | some anno0 =>
      let anno := { anno0 with is_deleted := true, updated_at := now }
      let store1 := saveAnno store anno
      let store2 ←
        if optTruthy anno.parent_id then
          match anno.parent_id with
          | some ppk =>
              match findAnno store1 ppk with
              | none => Except.error PyErr.doesNotExist
              | some parent =>
                  Except.ok (saveAnno store1
                    { parent with
                      total_comments := parent.total_comments - 1 })
          | none => Except.ok store1
        else Except.ok store1
      Except.ok (store2, { status := 200, body := serializeAnno anno })

/-- Outcome of one outbound HTTP call made by CatchStoreBackend: either the
requests library raised Timeout, or the remote service answered with a
status code and a body. -/
inductive RemoteOutcome where
  | timeout
  | ok (status : Nat) (content : String)
  deriving Repr, DecidableEq

/-- CatchStoreBackend._get_database_url: the stripped base url plus a fixed
sub path. -/
def get_database_url (base : String) (path : String) : String :=
  base.trim ++ path

/-- CatchStoreBackend._response_timeout: the synthetic 500 returned when an
outbound request times out. -/
def response_timeout : HttpResp :=
  { status := 500, content := "\x7b\"error\": \"request timeout\"\x7d",
    contentType := "application/json" }

/-- CatchStoreBackend.search: on success the remote body is wrapped with the
remote status code and a JSON content type. -/
def catch_search (remote : RemoteOutcome) : HttpResp :=
  match remote with
  | RemoteOutcome.timeout => response_timeout
  | RemoteOutcome.ok st content =>
      { status := st, content := content, contentType := "application/json" }

/-- CatchStoreBackend.create: same propagation as search. -/
def catch_create (remote : RemoteOutcome) : HttpResp :=
  match remote with
  | RemoteOutcome.timeout => response_timeout
  | RemoteOutcome.ok st content =>
      { status := st, content := content, contentType := "application/json" }

/-- CatchStoreBackend.update: same propagation as search; the annotation id
only enters the request url. -/
def catch_update (_annotation_id : Nat) (remote : RemoteOutcome) : HttpResp :=
  match remote with
  | RemoteOutcome.timeout => response_timeout
  | RemoteOutcome.ok st content =>
      { status := st, content := content, contentType := "application/json" }

/-- CatchStoreBackend.delete: unlike the other three operations the final
line is HttpResponse(response), i.e. the requests Response object itself is
passed as the body with no status argument. The requests Response is
iterable (its chunks are the downloaded content), so django serves the
remote body verbatim, but under its own defaults: status 200 and content
type text/html. The remote status code is dropped. -/
def catch_delete (_annotation_id : Nat) (remote : RemoteOutcome) : HttpResp :=
  match remote with
  | RemoteOutcome.timeout => response_timeout
  | RemoteOutcome.ok _st content =>
      { status := 200, content := content,
        contentType := "text/html; charset=utf-8" }

/-- The LTI session attributes store.py reads from request.LTI. -/
structure LTISession where
  hx_context_id : String
  hx_user_id : String
  is_staff : Bool
  is_graded : Bool
  deriving Repr, DecidableEq

/-- AnnotationStore._verify_course: the contextId taken from the request
(absent keys give None, which never equals the expected string). -/
def verify_course (s : LTISession) (context_id : Option String) : Bool :=
  context_id == some s.hx_context_id

/-- AnnotationStore._verify_user: the user id from the body must match the
session user unless the session user is staff. -/
def verify_user (s : LTISession) (user_id : Option String) : Bool :=
  user_id == some s.hx_user_id || s.is_staff

/-- Result of the call outcome = tool_provider.post_replace_result(score)
inside _lti_grade_passback: either it raised, or it returned an outcome with
a success flag and a description. -/
inductive GradeCallResult where
  | raised (msg : String)
  | outcome (success : Bool) (description : String)
  deriving Repr, DecidableEq

/-- AnnotationStore._lti_grade_passback. Returns whether the outcome service
was called at all, paired with the stored grade_passback_outcome attribute
(None when the call raised, since the assignment is skipped and the
exception is logged and swallowed). -/
def lti_grade_passback (is_graded : Bool) (status_code : Nat)
    (call : GradeCallResult) : Bool × Option (Bool × String) :=
  if !is_graded then (false, none)
  else if status_code != 200 then (false, none)
  else
    match call with
    | GradeCallResult.raised _ => (true, none)
    | GradeCallResult.outcome ok d => (true, some (ok, d))

/-- A row of the UserStats table, keyed by the composite
(context_id, collection_id, uri, user_id, user_name). -/
structure UserStats where
  context_id : String
  collection_id : String
  uri : String
  user_id : String
  user_name : String
  total_annotations : Int
  total_comments : Int
  deriving Repr, DecidableEq

/-- The fields _update_stats extracts from the parsed response body. -/
structure StatsBody where
  contextId : String
  collectionId : String
  uri : String
  userId : String
  userName : String
  media : String
  deriving Repr, DecidableEq

/-- The UserStats.objects.filter(**attrs) key match. -/
def statsMatch (body : StatsBody) (u : UserStats) : Bool :=
  u.context_id == body.contextId && u.collection_id == body.collectionId
    && u.uri == body.uri && u.user_id == body.userId
    && u.user_name == body.userName

/-- Modelled from the spec: models.py is not in the source tree, so the
counter defaults of the lazily created UserStats row come from the data
model section of the spec, where both counters start at zero and move by one
per qualifying action. -/
def newUserStats (body : StatsBody) : UserStats :=
  { context_id := body.contextId, collection_id := body.collectionId,
    uri := body.uri, user_id := body.userId, user_name := body.userName,
    total_annotations := 0, total_comments := 0 }

/-- The counter adjustment of _update_stats: comments move total_comments,
anything else moves total_annotations; create adds one, delete subtracts
one, any other action leaves the row alone. -/
def applyStatsDelta (action : String) (media : String) (u : UserStats) :
    UserStats :=
  if media == "comment" then
    if action == "create" then
      { u with total_comments := u.total_comments + 1 }
    else if action == "delete" then
      { u with total_comments := u.total_comments - 1 }
    else u
  else
    if action == "create" then
      { u with total_annotations := u.total_annotations + 1 }
    else if action == "delete" then
      { u with total_annotations := u.total_annotations - 1 }
    else u

/-- userstats.save() for a row fetched as the first filter match: replace
the first row satisfying the key predicate. -/
def replaceFirst (p : UserStats → Bool) (new : UserStats) :
    List UserStats → List UserStats
  | [] => []
  | x :: xs => if p x then new :: xs else x :: replaceFirst p new xs

/-- AnnotationStore._update_stats: skip unless gathering is enabled and the
action is create, update or delete; then parse the response body (a parse
failure propagates), lazily create the UserStats row when no row matches the
composite key, apply the counter delta and save. -/
def update_stats (gather : Bool) (action : String)
    (parsed : Option StatsBody) (db : List UserStats) :
    Except PyErr (List UserStats) :=
  if !gather then Except.ok db
  else if !(action == "create" || action == "update" || action == "delete")
    then Except.ok db
  else
    match parsed with
    | none => Except.error PyErr.jsonError
    | some body =>
        Except.ok (match db.filter (statsMatch body) with
          | [] => db ++ [applyStatsDelta action body.media (newUserStats body)]
          | u :: _ =>
              replaceFirst (statsMatch body)
                (applyStatsDelta action body.media u) db)

/-- AnnotationStore.search: verify the course from the request contextId
(PermissionDenied aborts before anything else), run the before_search hook
of the backend when it has one, then the backend search. The backend is an
arbitrary state transformer so the theorems quantify over it. -/
def dispatch_search {σ : Type} (s : LTISession) (getContextId : Option String)
    (beforeSearch : σ → σ) (backendSearch : σ → σ × HttpResp) (st : σ) :
    Except PyErr (σ × HttpResp) :=
  if verify_course s getContextId then
    Except.ok (backendSearch (beforeSearch st))
  else Except.error PyErr.permissionDenied

/-- Everything AnnotationStore.create produces: the backend state after the
write, the UserStats table after _update_stats, whether the grade outcome
service was called, the stored grade_passback_outcome, and the response
handed back to the client. -/
structure CreateOutput (σ : Type) where
  state : σ
  statsDb : List UserStats
  gradeCallMade : Bool
  grade_passback_outcome : Option (Bool × String)
  response : HttpResp
  deriving DecidableEq

/-- AnnotationStore.create: verify course then user (PermissionDenied aborts
before the backend runs; neither backend defines before_create), run the
backend create, then after_create: grade passback with result score 1
followed by the stats update. parse stands for json.loads on the response
body. -/
def dispatch_create {σ : Type} (s : LTISession) (gather : Bool)
    (bodyContextId bodyUserId : Option String)
    (backendCreate : σ → σ × HttpResp) (gradeCall : GradeCallResult)
    (parse : String → Option StatsBody) (st : σ) (db : List UserStats) :
    Except PyErr (CreateOutput σ) :=
  if !(verify_course s bodyContextId) then Except.error PyErr.permissionDenied
  else if !(verify_user s bodyUserId) then Except.error PyErr.permissionDenied
  else
    let r := backendCreate st
    let g := lti_grade_passback s.is_graded r.2.status gradeCall
    match update_stats gather "create" (parse r.2.content) db with
    | Except.error e => Except.error e
    | Except.ok db1 =>
        Except.ok { state := r.1, statsDb := db1, gradeCallMade := g.1,
                    grade_passback_outcome := g.2, response := r.2 }

/-- AnnotationStore.update and AnnotationStore.delete share this shape:
verify course then user from the request body (PermissionDenied aborts
before the backend runs; neither backend defines a before hook for these
actions), run the backend operation, then _update_stats with the action
name. -/
def dispatch_mutate {σ : Type} (s : LTISession) (gather : Bool)
    (action : String) (bodyContextId bodyUserId : Option String)
    (backendOp : σ → σ × HttpResp) (parse : String → Option StatsBody)
    (st : σ) (db : List UserStats) :
    Except PyErr ((σ × List UserStats) × HttpResp) :=
  if !(verify_course s bodyContextId) then Except.error PyErr.permissionDenied
  else if !(verify_user s bodyUserId) then Except.error PyErr.permissionDenied
  else
    let r := backendOp st
    match update_stats gather action (parse r.2.content) db with
    | Except.error e => Except.error e
    | Except.ok db1 => Except.ok ((r.1, db1), r.2)

/-- A concrete payload used by the witness theorems. -/
def samplePayload : AnnoPayload :=
  { contextId := "c1", collectionId := "l1", uri := "u", media := "text",
    userId := "u1", userName := "User One", text := "t", quote := "q",
    tags := [], parent := none, permissions := none }

/-- A concrete public annotation row used by the witness theorems. -/
def samplePubRow : Anno :=
  { pk := 1, context_id := "c1", collection_id := "l1", uri := "u",
    media := "text", user_id := "u1", user_name := "User One",
    is_private := false, text := "t", quote := "q", json := samplePayload,
    parent_id := none, total_comments := 0, is_deleted := false,
    created_at := "d", updated_at := "d", tags := [] }

/-- A concrete root annotation row with five comments, used by the witness
theorems. -/
def sampleParentRow : Anno :=
  { samplePubRow with pk := 1, total_comments := 5 }

/-- A concrete reply row whose soft delete flag is already set, used by the
witness theorems. -/
def sampleDeletedReply : Anno :=
  { samplePubRow with pk := 2, parent_id := some 1, is_deleted := true }

/-- A concrete parsed response body for the stats accumulator, used by the
witness theorems. -/
def sampleStatsBody : StatsBody :=
  { contextId := "c1", collectionId := "l1", uri := "u", userId := "u1",
    userName := "User One", media := "text" }

/-! Helper lemmas. -/

theorem payloadRead_merged (p : AnnoPayload) :
    payloadRead p = (mergedPerms p).read := by
  cases h : p.permissions <;> simp [payloadRead, mergedPerms, h]

theorem mergedPerms_toDict (p : AnnoPayload) (q : Perms) :
    mergedPerms { p with permissions := some (toDict q) } = q := by
  cases q
  rfl

theorem modify_permissions_of_empty (p : AnnoPayload)
    (h : (mergedPerms p).read = []) : modify_permissions p = p := by
  simp [modify_permissions, h]

theorem modify_permissions_of_parent (p : AnnoPayload)
    (h : (mergedPerms p).read ≠ []) (hp : hasParentB p = true) :
    modify_permissions p
      = { p with permissions := some (toDict { mergedPerms p with read := [] }) } := by
  simp [modify_permissions, h, hp]

theorem modify_permissions_of_top (p : AnnoPayload)
    (h : (mergedPerms p).read ≠ []) (hp : hasParentB p = false) :
    modify_permissions p
      = { p with permissions := some (toDict { mergedPerms p with read :=
            (if ADMIN_GROUP_ID ∈
                (if p.userId ∈ (mergedPerms p).read then (mergedPerms p).read
                 else p.userId :: (mergedPerms p).read) then
               (if p.userId ∈ (mergedPerms p).read then (mergedPerms p).read
                else p.userId :: (mergedPerms p).read)
             else
               (if p.userId ∈ (mergedPerms p).read then (mergedPerms p).read
                else p.userId :: (mergedPerms p).read) ++ [ADMIN_GROUP_ID]) }) } := by
  simp [modify_permissions, h, hp]

/-! Claim theorems. -/

/-- C7: for every payload with a nonempty read permission list and a parent
field present that is neither empty nor "0" (a private reply), the rewriter
forces the read permission list of the output to be empty. -/
theorem reply_read_forced_empty (p : AnnoPayload) (s : String)
    (h1 : payloadRead p ≠ []) (h2 : p.parent = some s) (h3 : s ≠ "")
    (h4 : s ≠ "0") : payloadRead (modify_permissions p) = [] := by
  have hr : (mergedPerms p).read ≠ [] := by
    rw [← payloadRead_merged]
    exact h1
  have hp : hasParentB p = true := by
    simp [hasParentB, h2, h3, h4]
  rw [modify_permissions_of_parent p hr hp]
  simp [payloadRead, toDict]

/-- C7 witness at a concrete private reply payload. -/
theorem reply_read_forced_empty_witness :
    payloadRead (modify_permissions
      { contextId := "c1", collectionId := "l1", uri := "u", media := "comment",
        userId := "u1", userName := "User One", text := "t", quote := "q",
        tags := [], parent := some "12",
        permissions := some { read := some ["u1"], admin := none,
                              update := none, delete := none } }) = [] :=
  reply_read_forced_empty _ "12" (by decide) rfl (by decide) (by decide)

/-- C6: the permission rewriter is idempotent on the read permission list:
applying it twice yields the same read list as applying it once. -/
theorem rewriter_idempotent (p : AnnoPayload) :
    payloadRead (modify_permissions (modify_permissions p))
      = payloadRead (modify_permissions p) := by
  by_cases h0 : (mergedPerms p).read = []
  · rw [modify_permissions_of_empty p h0, modify_permissions_of_empty p h0]
  · cases hp : hasParentB p
    · -- private top level annotation
      rw [modify_permissions_of_top p h0 hp]
      set r1 := if p.userId ∈ (mergedPerms p).read then (mergedPerms p).read
                else p.userId :: (mergedPerms p).read with hr1
      set r2 := if ADMIN_GROUP_ID ∈ r1 then r1 else r1 ++ [ADMIN_GROUP_ID]
        with hr2
      have hu1 : p.userId ∈ r1 := by
        rw [hr1]
        by_cases hu : p.userId ∈ (mergedPerms p).read
        · simp [hu]
        · simp [hu]
      have hu2 : p.userId ∈ r2 := by
        rw [hr2]
        by_cases ha : ADMIN_GROUP_ID ∈ r1
        · simp [ha, hu1]
        · simp [ha]
          exact Or.inl hu1
      have ha2 : ADMIN_GROUP_ID ∈ r2 := by
        rw [hr2]
        by_cases ha : ADMIN_GROUP_ID ∈ r1
        · simp [ha]
        · simp [ha]
      have hr1ne : r1 ≠ [] := by
        rw [hr1]
        by_cases hu : p.userId ∈ (mergedPerms p).read
        · simp [hu, h0]
        · simp [hu]
      have hr2ne : r2 ≠ [] := by
        rw [hr2]
        by_cases ha : ADMIN_GROUP_ID ∈ r1
        · simp [ha, hr1ne]
        · simp [ha]
      set p1 : AnnoPayload :=
        { p with permissions := some (toDict { mergedPerms p with read := r2 }) }
        with hp1
      have hm1 : mergedPerms p1 = { mergedPerms p with read := r2 } :=
        mergedPerms_toDict p _
      have hm1r : (mergedPerms p1).read ≠ [] := by
        rw [hm1]
        exact hr2ne
      have hpar1 : hasParentB p1 = false := by
        rw [hp1]
        simpa [hasParentB] using hp
      have huid1 : p1.userId = p.userId := rfl
      rw [modify_permissions_of_top p1 hm1r hpar1]
      simp only [payloadRead_merged, mergedPerms_toDict, hm1, huid1, hu2,
        if_pos, ha2]
    · -- private reply
      rw [modify_permissions_of_parent p h0 hp]
      set p1 : AnnoPayload :=
        { p with permissions := some (toDict { mergedPerms p with read := [] }) }
        with hp1
      have hm1 : (mergedPerms p1).read = [] := by
        rw [mergedPerms_toDict]
      rw [modify_permissions_of_empty p1 hm1]

/-- C1: a search run by a non staff session user only ever returns rows that
are not private or belong to that user, whatever keyword filters, limit and
offset the query supplied. -/
theorem search_nonstaff_visibility (store : List Anno) (uid : String)
    (filters : Anno → Bool) (lp op : Option String) (a : Anno)
    (h : a ∈ (app_search store uid false filters lp op).rows) :
    a.is_private = false ∨ a.user_id = uid := by
  have hq : a ∈ app_search_queryset store uid false filters := by
    simp only [app_search] at h
    split at h
    · exact List.mem_of_mem_drop h
    · exact List.mem_of_mem_take (List.mem_of_mem_drop h)
  have hcond := (List.mem_filter.mp hq).2
  simp only [Bool.false_or, Bool.and_eq_true, Bool.or_eq_true,
    Bool.not_eq_true', beq_iff_eq] at hcond
  rcases hcond.1 with hpub | hmine
  · exact Or.inl hpub
  · exact Or.inr hmine.2

/-- C1 witness: a concrete public row is returned to a non staff caller and
satisfies the visibility disjunction. -/
theorem search_nonstaff_visibility_witness :
    samplePubRow ∈
      (app_search [samplePubRow] "u2" false (fun _ => true) none none).rows
    ∧ (samplePubRow.is_private = false ∨ samplePubRow.user_id = "u2") :=
  ⟨by decide,
   search_nonstaff_visibility [samplePubRow] "u2" (fun _ => true) none none
     samplePubRow (by decide)⟩

/-- C8: a digits only limit above 1000 is clamped to 1000, with 1000 also the
default for an absent or non numeric limit; a digits only offset at or above
the total match count is clamped to the total, and the response then has
empty rows and size zero. -/
theorem search_pagination_clamps (store : List Anno) (uid : String)
    (staff : Bool) (filters : Anno → Bool) (ls os : String)
    (h1 : strIsDigit ls = true) (h2 : 1000 < strToNat ls)
    (h3 : strIsDigit os = true)
    (h4 : (app_search_queryset store uid staff filters).length ≤ strToNat os) :
    (app_search store uid staff filters (some ls) (some os)).limit = 1000
    ∧ (app_search store uid staff filters none (some os)).limit = 1000
    ∧ (∀ t, strIsDigit t = false →
        (app_search store uid staff filters (some t) (some os)).limit = 1000)
    ∧ (app_search store uid staff filters (some ls) (some os)).offset
        = (app_search store uid staff filters (some ls) (some os)).total
    ∧ (app_search store uid staff filters (some ls) (some os)).rows = []
    ∧ (app_search store uid staff filters (some ls) (some os)).size = 0 := by
  set qs := app_search_queryset store uid staff filters with hqs
  have hlim : searchLimit (some ls) = 1000 := by
    have hnle : ¬ ((strToNat ls : Int) ≤ (1000 : Int)) := by
      exact_mod_cast Nat.not_le.mpr h2
    simp [searchLimit, h1, hnle, MAX_LIMIT]
  have hoff : searchOffset (some os) qs.length = qs.length := by
    have hnlt : ¬ (strToNat os < qs.length) := Nat.not_lt.mpr h4
    simp [searchOffset, h3, hnlt]
  have hrows : (app_search store uid staff filters (some ls) (some os)).rows
      = [] := by
    show (if searchLimit (some ls) < 0 then
            qs.drop (searchOffset (some os) qs.length)
          else
            (qs.take (if (searchOffset (some os) qs.length : Int)
                  + searchLimit (some ls) < (qs.length : Int) then
                (searchOffset (some os) qs.length : Int)
                  + searchLimit (some ls)
              else (qs.length : Int)).toNat).drop
              (searchOffset (some os) qs.length)) = []
    rw [hlim, hoff]
    have hc1 : ¬ ((1000 : Int) < 0) := by norm_num
    have hc2 : ¬ ((qs.length : Int) + 1000 < (qs.length : Int)) := by omega
    rw [if_neg hc1, if_neg hc2]
    have ht : ((qs.length : Int)).toNat = qs.length := Int.toNat_natCast _
    rw [ht, List.take_length, List.drop_length]
  refine ⟨hlim, ?_, ?_, ?_, ?_, ?_⟩
  · show searchLimit none = 1000
    simp [searchLimit, MAX_LIMIT]
  · intro t ht
    show searchLimit (some t) = 1000
    simp [searchLimit, ht, MAX_LIMIT]
  · show searchOffset (some os) qs.length = qs.length
    exact hoff
  · exact hrows
  · show (app_search store uid staff filters (some ls) (some os)).rows.length
        = 0
    rw [hrows]
    rfl

/-- C8 witness: with one matching row, limit 5000 is clamped to 1000 and
offset 1 is clamped to the total 1, leaving no rows. -/
theorem search_pagination_clamps_witness :
    (app_search [samplePubRow] "u1" true (fun _ => true) (some "5000")
        (some "1")).limit = 1000
    ∧ (app_search [samplePubRow] "u1" true (fun _ => true) (some "5000")
        (some "1")).rows = [] :=
  ⟨(search_pagination_clamps [samplePubRow] "u1" true (fun _ => true) "5000"
      "1" (by decide) (by decide) (by decide) (by decide)).1,
   (search_pagination_clamps [samplePubRow] "u1" true (fun _ => true) "5000"
      "1" (by decide) (by decide) (by decide) (by decide)).2.2.2.2.1⟩

/-- C2: whenever the authorization check fails (the contextId does not match
the session course, or for create, update and delete the body user id does
not match the session user and the session user is not staff), every
dispatcher operation yields PermissionDenied, for every backend and every
backend state: the backend is never invoked. -/
theorem auth_failure_forbidden {σ : Type} (s : LTISession)
    (ctx uid : Option String) (gather : Bool) (action : String)
    (before : σ → σ) (bs bc bm : σ → σ × HttpResp) (gc : GradeCallResult)
    (parse : String → Option StatsBody) (st : σ) (db : List UserStats) :
    (ctx ≠ some s.hx_context_id →
      dispatch_search s ctx before bs st
        = Except.error PyErr.permissionDenied)
    ∧ ((ctx ≠ some s.hx_context_id
          ∨ (uid ≠ some s.hx_user_id ∧ s.is_staff = false)) →
      dispatch_create s gather ctx uid bc gc parse st db
          = Except.error PyErr.permissionDenied
        ∧ dispatch_mutate s gather action ctx uid bm parse st db
          = Except.error PyErr.permissionDenied) := by
  constructor
  · intro h
    have hv : verify_course s ctx = false := by
      simp [verify_course, h]
    simp [dispatch_search, hv]
  · intro h
    rcases h with hc | ⟨hu, hs⟩
    · have hv : verify_course s ctx = false := by
        simp [verify_course, hc]
      exact ⟨by simp [dispatch_create, hv], by simp [dispatch_mutate, hv]⟩
    · have hvu : verify_user s uid = false := by
        simp [verify_user, hu, hs]
      by_cases hv : verify_course s ctx = true
      · exact ⟨by simp [dispatch_create, hv, hvu],
               by simp [dispatch_mutate, hv, hvu]⟩
      · have hv2 : verify_course s ctx = false := by
          simpa using hv
        exact ⟨by simp [dispatch_create, hv2], by simp [dispatch_mutate, hv2]⟩

/-- C2 witness: a mismatched course id makes a concrete search and a
concrete create fail with PermissionDenied. -/
theorem auth_failure_forbidden_witness :
    some "c2" ≠ some "c1"
    ∧ dispatch_search (σ := Unit) (LTISession.mk "c1" "u1" false false)
        (some "c2") (fun u => u)
        (fun u => (u, { status := 200, content := "",
                        contentType := "application/json" })) ()
        = Except.error PyErr.permissionDenied
    ∧ dispatch_create (σ := Unit) (LTISession.mk "c1" "u1" false false) false
        (some "c2") (some "u1")
        (fun u => (u, { status := 200, content := "",
                        contentType := "application/json" }))
        (GradeCallResult.outcome true "ok") (fun _ => none) () []
        = Except.error PyErr.permissionDenied :=
  ⟨by decide,
   (auth_failure_forbidden (σ := Unit) (LTISession.mk "c1" "u1" false false)
      (some "c2") (some "u1") false "update" (fun u => u)
      (fun u => (u, { status := 200, content := "",
                      contentType := "application/json" }))
      (fun u => (u, { status := 200, content := "",
                      contentType := "application/json" }))
      (fun u => (u, { status := 200, content := "",
                      contentType := "application/json" }))
      (GradeCallResult.outcome true "ok") (fun _ => none) () []).1
     (by decide),
   ((auth_failure_forbidden (σ := Unit) (LTISession.mk "c1" "u1" false false)
      (some "c2") (some "u1") false "update" (fun u => u)
      (fun u => (u, { status := 200, content := "",
                      contentType := "application/json" }))
      (fun u => (u, { status := 200, content := "",
                      contentType := "application/json" }))
      (fun u => (u, { status := 200, content := "",
                      contentType := "application/json" }))
      (GradeCallResult.outcome true "ok") (fun _ => none) () []).2
     (Or.inl (by decide))).1⟩

/-- C3: the remote proxy backend propagates the remote status code and body
verbatim for search, create and update, but its delete wraps the iterable
requests Response object in a fresh response: the remote body is served
verbatim while the status code is always 200, so the remote status code is
not carried through. -/
theorem catch_propagation_delete_divergence :
    (∀ st c, catch_search (RemoteOutcome.ok st c)
        = { status := st, content := c, contentType := "application/json" })
    ∧ (∀ st c, catch_create (RemoteOutcome.ok st c)
        = { status := st, content := c, contentType := "application/json" })
    ∧ (∀ i st c, catch_update i (RemoteOutcome.ok st c)
        = { status := st, content := c, contentType := "application/json" })
    ∧ (∀ i st c, catch_delete i (RemoteOutcome.ok st c)
        = { status := 200, content := c,
            contentType := "text/html; charset=utf-8" })
    ∧ (catch_delete 7 (RemoteOutcome.ok 404 "x")).status = 200
    ∧ (catch_delete 7 (RemoteOutcome.ok 404 "x")).status ≠ 404 :=
  ⟨fun _ _ => rfl, fun _ _ => rfl, fun _ _ _ => rfl, fun _ _ _ => rfl,
   rfl, by decide⟩

/-- C4 counterexample: a local backend delete (and update) of a missing id
raises the DoesNotExist exception of Model.objects.get, which is not the
Http404 of get_object_or_404, so the operation does not fail with a 404. -/
theorem missing_id_not_404_cex :
    app_update false [] 7 samplePayload "d" = Except.error PyErr.doesNotExist
    ∧ app_delete [] 7 "d" = Except.error PyErr.doesNotExist
    ∧ PyErr.doesNotExist ≠ PyErr.http404 :=
  ⟨rfl, rfl, by decide⟩

/-- C4 amended: on a missing annotation id the local backend read fails with
Http404 (a 404 response), while update and delete raise DoesNotExist, an
unhandled exception rather than a 404. -/
theorem missing_id_amended (store : List Anno) (annotation_id : Nat)
    (adminEnabled : Bool) (body : AnnoPayload) (now : String)
    (h : findAnno store annotation_id = none) :
    app_read store annotation_id = Except.error PyErr.http404
    ∧ app_update adminEnabled store annotation_id body now
        = Except.error PyErr.doesNotExist
    ∧ app_delete store annotation_id now
        = Except.error PyErr.doesNotExist := by
  refine ⟨?_, ?_, ?_⟩ <;> simp [app_read, app_update, app_delete, h]

/-- C4 witness: the amended statement at the empty store. -/
theorem missing_id_amended_witness :
    findAnno [] 7 = none ∧ app_read [] 7 = Except.error PyErr.http404 :=
  ⟨rfl, (missing_id_amended [] 7 false samplePayload "d" rfl).1⟩

/-- The outcome service is not called when the launch is not graded or the
backend status is not 200. -/
theorem lti_grade_passback_skip (g : Bool) (code : Nat) (c : GradeCallResult)
    (h : g = false ∨ code ≠ 200) :
    (lti_grade_passback g code c).1 = false := by
  rcases h with h | h
  · subst h
    rfl
  · cases g
    · rfl
    · have hb : (code != 200) = true := bne_iff_ne.mpr h
      simp [lti_grade_passback, hb]

/-- C5: the response of the create dispatcher does not depend on what the
grade passback call does (an exception or a failed outcome is swallowed), and
the outcome service is never called when the launch is not graded or the
backend response status is not 200. -/
theorem grade_passback_isolated {σ : Type} (s : LTISession) (gather : Bool)
    (ctx uid : Option String) (bc : σ → σ × HttpResp)
    (gc gc2 : GradeCallResult) (parse : String → Option StatsBody)
    (st : σ) (db : List UserStats) :
    ((dispatch_create s gather ctx uid bc gc parse st db).map
        CreateOutput.response
      = (dispatch_create s gather ctx uid bc gc2 parse st db).map
        CreateOutput.response)
    ∧ (∀ r, dispatch_create s gather ctx uid bc gc parse st db = Except.ok r →
        (s.is_graded = false ∨ r.response.status ≠ 200) →
        r.gradeCallMade = false) := by
  constructor
  · cases hvc : verify_course s ctx
    · simp [dispatch_create, hvc]
    · cases hvu : verify_user s uid
      · simp [dispatch_create, hvc, hvu]
      · cases hst : update_stats gather "create" (parse (bc st).2.content) db
        · simp [dispatch_create, hvc, hvu, hst]
        · simp [dispatch_create, hvc, hvu, hst, Except.map]
  · intro r hr hcond
    cases hvc : verify_course s ctx
    · simp [dispatch_create, hvc] at hr
    · cases hvu : verify_user s uid
      · simp [dispatch_create, hvc, hvu] at hr
      · cases hst : update_stats gather "create" (parse (bc st).2.content) db
        · simp [dispatch_create, hvc, hvu, hst] at hr
        · simp [dispatch_create, hvc, hvu, hst] at hr
          have hmade : r.gradeCallMade
              = (lti_grade_passback s.is_graded (bc st).2.status gc).1 := by
            rw [← hr]
          have hresp : r.response = (bc st).2 := by
            rw [← hr]
          rw [hmade]
          apply lti_grade_passback_skip
          rcases hcond with h | h
          · exact Or.inl h
          · rw [hresp] at h
            exact Or.inr h

/-- C5 witness: with a non graded launch the outcome service is not called
even though the passback oracle would raise. -/
theorem grade_passback_isolated_witness :
    dispatch_create (σ := Unit) (LTISession.mk "c1" "u1" false false) false
      (some "c1") (some "u1")
      (fun u => (u, { status := 200, content := "",
                      contentType := "application/json" }))
      (GradeCallResult.raised "boom") (fun _ => none) () []
      = Except.ok
        { state := (), statsDb := [], gradeCallMade := false,
          grade_passback_outcome := none,
          response := { status := 200, content := "",
                        contentType := "application/json" } }
    ∧ ({ state := (), statsDb := [], gradeCallMade := false,
         grade_passback_outcome := none,
         response := { status := 200, content := "",
                       contentType := "application/json" } } :
        CreateOutput Unit).gradeCallMade = false :=
  ⟨rfl,
   (grade_passback_isolated (σ := Unit) (LTISession.mk "c1" "u1" false false)
      false (some "c1") (some "u1")
      (fun u => (u, { status := 200, content := "",
                      contentType := "application/json" }))
      (GradeCallResult.raised "boom") (GradeCallResult.outcome true "ok")
      (fun _ => none) () []).2
     { state := (), statsDb := [], gradeCallMade := false,
       grade_passback_outcome := none,
       response := { status := 200, content := "",
                     contentType := "application/json" } }
     rfl (Or.inl rfl)⟩

/-- A found row carries the primary key it was looked up by. -/
theorem findAnno_pk {store : List Anno} {q : Nat} {a : Anno}
    (h : findAnno store q = some a) : a.pk = q := by
  have := List.find?_some h
  simpa using this

/-- Saving a row does not change lookups of other primary keys. -/
theorem findAnno_saveAnno_ne (store : List Anno) (a : Anno) (q : Nat)
    (h : a.pk ≠ q) : findAnno (saveAnno store a) q = findAnno store q := by
  unfold findAnno saveAnno
  rw [List.find?_map]
  have hfun : ((fun x : Anno => x.pk == q)
        ∘ (fun x : Anno => if x.pk == a.pk then a else x))
      = fun x : Anno => x.pk == q := by
    funext x
    by_cases hx : (x.pk == a.pk) = true
    · have hxa : x.pk = a.pk := by simpa using hx
      simp [Function.comp, hx, hxa]
    · simp [Function.comp, hx]
  rw [hfun]
  cases hf : store.find? (fun x : Anno => x.pk == q) with
  | none => rfl
  | some b =>
      have hb : b.pk = q := by simpa using List.find?_some hf
      have hba : (b.pk == a.pk) = false := by
        rw [hb]
        exact beq_eq_false_iff_ne.mpr fun he => h he.symm
      simp [Option.map, hba]

/-- Saving a row that exists makes lookups of its primary key return it. -/
theorem findAnno_saveAnno_self (store : List Anno) (a : Anno)
    (h : ∃ b, findAnno store a.pk = some b) :
    findAnno (saveAnno store a) a.pk = some a := by
  unfold findAnno at h
  unfold findAnno saveAnno
  rw [List.find?_map]
  obtain ⟨b, hb⟩ := h
  have hfun : ((fun x : Anno => x.pk == a.pk)
        ∘ (fun x : Anno => if x.pk == a.pk then a else x))
      = fun x : Anno => x.pk == a.pk := by
    funext x
    by_cases hx : (x.pk == a.pk) = true
    · simp [Function.comp, hx]
    · simp [Function.comp, hx]
  rw [hfun, hb]
  have hbpk : b.pk = a.pk := by simpa using List.find?_some hb
  simp [Option.map, hbpk]

/-- Full characterization of a successful local backend delete of a reply:
the reply row is soft deleted, the parent row loses one comment, and both
rows are found back in the resulting store. -/
theorem app_delete_spec (store : List Anno) (annotation_id ppk : Nat)
    (now : String) (anno parent : Anno)
    (h1 : findAnno store annotation_id = some anno)
    (h2 : anno.parent_id = some ppk) (h3 : ppk ≠ 0) (h4 : ppk ≠ annotation_id)
    (h5 : findAnno store ppk = some parent) :
    app_delete store annotation_id now =
      Except.ok
        (saveAnno
          (saveAnno store
            { anno with
                parent_id := some ppk
                is_deleted := true
                updated_at := now })
          { parent with total_comments := parent.total_comments - 1 },
         { status := 200,
           body := serializeAnno
             { anno with
                 parent_id := some ppk
                 is_deleted := true
                 updated_at := now } })
    ∧ findAnno
        (saveAnno
          (saveAnno store
            { anno with
                parent_id := some ppk
                is_deleted := true
                updated_at := now })
          { parent with total_comments := parent.total_comments - 1 }) ppk
        = some { parent with total_comments := parent.total_comments - 1 }
    ∧ findAnno
        (saveAnno
          (saveAnno store
            { anno with
                parent_id := some ppk
                is_deleted := true
                updated_at := now })
          { parent with total_comments := parent.total_comments - 1 })
        annotation_id
        = some { anno with
            parent_id := some ppk
            is_deleted := true
            updated_at := now } := by
  have hpk : anno.pk = annotation_id := findAnno_pk h1
  have hppk : parent.pk = ppk := findAnno_pk h5
  have hne1 : ({ anno with
      parent_id := some ppk
      is_deleted := true
      updated_at := now } : Anno).pk ≠ ppk := by
    show anno.pk ≠ ppk
    rw [hpk]
    exact fun he => h4 he.symm
  have hfind1 : findAnno
      (saveAnno store
        { anno with
          parent_id := some ppk
          is_deleted := true
          updated_at := now }) ppk
      = some parent := by
    rw [findAnno_saveAnno_ne store _ ppk hne1]
    exact h5
  have htr : optTruthy (some ppk) = true := by
    simp [optTruthy, h3]
  have hself1 : findAnno
      (saveAnno store
        { anno with
          parent_id := some ppk
          is_deleted := true
          updated_at := now })
      annotation_id
      = some { anno with
          parent_id := some ppk
          is_deleted := true
          updated_at := now } := by
    have hq : ({ anno with
        parent_id := some ppk
        is_deleted := true
        updated_at := now } : Anno).pk = annotation_id := hpk
    rw [← hq]
    exact findAnno_saveAnno_self store _ ⟨anno, by rw [hq]; exact h1⟩
  refine ⟨?_, ?_, ?_⟩
  · simp only [app_delete, h1, h2, htr, if_true, hfind1]
    rfl
  · have hp2 : ({ parent with
        total_comments := parent.total_comments - 1 } : Anno).pk = ppk := hppk
    rw [← hp2]
    exact findAnno_saveAnno_self _ _ ⟨parent, by rw [hp2]; exact hfind1⟩
  · have hp2 : ({ parent with
        total_comments := parent.total_comments - 1 } : Anno).pk = ppk := hppk
    have hne2 : ({ parent with
        total_comments := parent.total_comments - 1 } : Anno).pk
        ≠ annotation_id := by
      rw [hp2]
      exact h4
    rw [findAnno_saveAnno_ne _ _ annotation_id hne2]
    exact hself1

/-- C9: deleting a reply decrements the total_comments of its parent by one
on every call, with no guard on the is_deleted flag, so deleting the same
reply twice decrements the parent counter twice: delete is not idempotent
with respect to the parent counter. -/
theorem delete_decrements_parent_each_call (store : List Anno)
    (annotation_id ppk : Nat) (now : String) (anno parent : Anno)
    (h1 : findAnno store annotation_id = some anno)
    (h2 : anno.parent_id = some ppk) (h3 : ppk ≠ 0)
    (h4 : ppk ≠ annotation_id) (h5 : findAnno store ppk = some parent) :
    ∃ st1 r1 st2 r2,
      app_delete store annotation_id now = Except.ok (st1, r1)
      ∧ (findAnno st1 ppk).map Anno.total_comments
          = some (parent.total_comments - 1)
      ∧ app_delete st1 annotation_id now = Except.ok (st2, r2)
      ∧ (findAnno st2 ppk).map Anno.total_comments
          = some (parent.total_comments - 2) := by
  obtain ⟨he1, hp1, ha1⟩ :=
    app_delete_spec store annotation_id ppk now anno parent h1 h2 h3 h4 h5
  obtain ⟨he2, hp2, _⟩ :=
    app_delete_spec _ annotation_id ppk now
      { anno with
        parent_id := some ppk
        is_deleted := true
        updated_at := now }
      { parent with total_comments := parent.total_comments - 1 }
      ha1 rfl h3 h4 hp1
  refine ⟨_, _, _, _, he1, ?_, he2, ?_⟩
  · rw [hp1]
    rfl
  · rw [hp2]
    show some (parent.total_comments - 1 - 1) = some (parent.total_comments - 2)
    congr 1
    omega

/-- C9 witness: a reply whose is_deleted flag is already true still
decrements its parent from 5 to 4, and a second delete goes to 3. -/
theorem delete_decrements_parent_witness :
    sampleDeletedReply.is_deleted = true
    ∧ ∃ st1 r1 st2 r2,
      app_delete [sampleParentRow, sampleDeletedReply] 2 "d2"
          = Except.ok (st1, r1)
      ∧ (findAnno st1 1).map Anno.total_comments
          = some (sampleParentRow.total_comments - 1)
      ∧ app_delete st1 2 "d2" = Except.ok (st2, r2)
      ∧ (findAnno st2 1).map Anno.total_comments
          = some (sampleParentRow.total_comments - 2) :=
  ⟨rfl,
   delete_decrements_parent_each_call [sampleParentRow, sampleDeletedReply]
     2 1 "d2" sampleDeletedReply sampleParentRow (by decide) rfl
     (by decide) (by decide) (by decide)⟩

/-- The stats counter delta is the identity for the update action. -/
theorem applyStatsDelta_update (m : String) (u : UserStats) :
    applyStatsDelta "update" m u = u := by
  simp [applyStatsDelta]

/-- Saving back the first key match unchanged leaves the table unchanged. -/
theorem replaceFirst_self (p : UserStats → Bool) (db : List UserStats)
    (u : UserStats) (us : List UserStats) (h : db.filter p = u :: us) :
    replaceFirst p u db = db := by
  induction db with
  | nil => simp at h
  | cons x xs ih =>
      by_cases hx : p x = true
      · have hxu : x = u := by
          have := h
          rw [List.filter_cons, if_pos hx] at this
          exact ((List.cons.injEq _ _ _ _).mp this).1
        subst hxu
        simp [replaceFirst, hx]
      · have h2 : xs.filter p = u :: us := by
          have := h
          rw [List.filter_cons, if_neg hx] at this
          exact this
        simp [replaceFirst, hx, ih h2]

/-- C10: with statistics gathering enabled, a stats update for the update
action and a parseable body leaves every counter untouched, yet lazily
creates and saves a UserStats row for the composite key when none exists. -/
theorem stats_update_materializes (body : StatsBody) (db : List UserStats) :
    (db.filter (statsMatch body) = [] →
      update_stats true "update" (some body) db
        = Except.ok (db ++ [newUserStats body]))
    ∧ (∀ u us, db.filter (statsMatch body) = u :: us →
      update_stats true "update" (some body) db = Except.ok db) := by
  constructor
  · intro h
    simp [update_stats, h, applyStatsDelta_update]
  · intro u us h
    simp [update_stats, h, applyStatsDelta_update,
      replaceFirst_self (statsMatch body) db u us h]

/-- C10 witness: on an empty table an update action materializes the row
with both counters at zero; with the row present it changes nothing. -/
theorem stats_update_materializes_witness :
    ([] : List UserStats).filter (statsMatch sampleStatsBody) = []
    ∧ update_stats true "update" (some sampleStatsBody) []
        = Except.ok [newUserStats sampleStatsBody]
    ∧ update_stats true "update" (some sampleStatsBody) [newUserStats sampleStatsBody]
        = Except.ok [newUserStats sampleStatsBody] :=
  ⟨rfl,
   (stats_update_materializes sampleStatsBody []).1 rfl,
   (stats_update_materializes sampleStatsBody [newUserStats sampleStatsBody]).2
     (newUserStats sampleStatsBody) [] (by decide)⟩

end HxAT
